import Mathlib

/-!
Shallow embedding of the Eunoia document-summarization utility
(source: summarize-test-2.py) and proofs of its specified properties.

The program has four parts, each embedded below:
  * a Perplexity chat-completion client (generate_summary_with_perplexity),
  * a PDF text extractor (extract_text_from_pdf),
  * a MySQL record store (create_table_if_not_exists, save_summary_to_db,
    load_saved_summaries),
  * a Streamlit session controller (main), modelled as explicit step
    functions over a session-state record plus a database value.

External effects are made explicit: the HTTP layer is an oracle
`net : Payload → HttpResponse` standing for requests.post, a PDF is the
list of per-page results of pdfplumber page.extract_text() (none for a
page with no extractable text), and datetime.now() / the date picker are
passed in as arguments.
-/

/-! ## Python string truthiness and str.strip() -/

/-- Python truthiness of a string: non-empty. -/
def pyTruthy (s : String) : Bool := s ≠ ""

/-- Drop trailing whitespace characters, as a list operation. -/
def trailStrip (l : List Char) : List Char :=
  ((l.reverse.dropWhile Char.isWhitespace).reverse)

/-- Drop leading and trailing whitespace characters. -/
def stripList (l : List Char) : List Char :=
  trailStrip (l.dropWhile Char.isWhitespace)

/-- Embedding of Python str.strip(): remove leading and trailing
whitespace from a string. -/
def pyStrip (s : String) : String := ⟨stripList s.data⟩

theorem dropWhile_head_false (p : Char → Bool) (l : List Char) (a : Char)
    (t : List Char) (h : l.dropWhile p = a :: t) : p a = false := by
  induction l with
  | nil => simp at h
  | cons x xs ih =>
    cases hx : p x with
    | true =>
      rw [List.dropWhile_cons] at h
      simp only [hx, if_true] at h
      exact ih h
    | false =>
      rw [List.dropWhile_cons] at h
      simp only [hx] at h
      obtain ⟨h1, _⟩ := List.cons.inj h
      rw [← h1]; exact hx

theorem dropWhile_dropWhile (p : Char → Bool) (l : List Char) :
    (l.dropWhile p).dropWhile p = l.dropWhile p := by
  cases h : l.dropWhile p with
  | nil => simp
  | cons a t =>
    have hw := dropWhile_head_false p l a t h
    simp [List.dropWhile_cons, hw]

theorem trailStrip_trailStrip (l : List Char) :
    trailStrip (trailStrip l) = trailStrip l := by
  unfold trailStrip
  rw [List.reverse_reverse, dropWhile_dropWhile]

theorem trailStrip_append_exists (l : List Char) :
    ∃ t, trailStrip l ++ t = l := by
  obtain ⟨s, hs⟩ := List.dropWhile_suffix (l := l.reverse) Char.isWhitespace
  refine ⟨s.reverse, ?_⟩
  have := congrArg List.reverse hs
  simpa using this

theorem dropWhile_trailStrip (l : List Char) :
    (trailStrip (l.dropWhile Char.isWhitespace)).dropWhile Char.isWhitespace
      = trailStrip (l.dropWhile Char.isWhitespace) := by
  cases h : trailStrip (l.dropWhile Char.isWhitespace) with
  | nil => simp
  | cons c t =>
    obtain ⟨s, hs⟩ := trailStrip_append_exists (l.dropWhile Char.isWhitespace)
    rw [h] at hs
    have hw := dropWhile_head_false Char.isWhitespace l c (t ++ s)
      (by rw [hs.symm]; simp)
    simp [List.dropWhile_cons, hw]

theorem stripList_stripList (l : List Char) :
    stripList (stripList l) = stripList l := by
  unfold stripList
  rw [dropWhile_trailStrip, trailStrip_trailStrip]

/-- str.strip() is idempotent. -/
theorem pyStrip_pyStrip (s : String) : pyStrip (pyStrip s) = pyStrip s := by
  unfold pyStrip
  exact congrArg String.mk (stripList_stripList s.data)

/-! ## JSON values and the Perplexity chat-completion client -/

/-- Untyped JSON values, as produced by response.json(). -/
inductive Json where
  | null : Json
  | bool (b : Bool) : Json
  | num (n : Int) : Json
  | str (s : String) : Json
  | arr (elems : List Json) : Json
  | obj (fields : List (String × Json)) : Json

/-- Python dict key lookup on a JSON object field list. -/
def lookupField : List (String × Json) → String → Option Json
  | [], _ => none
  | (k, v) :: rest, key => if k = key then some v else lookupField rest key

/-- result[key] on a JSON value: succeeds only on an object holding
the key (otherwise Python raises KeyError or TypeError). -/
def Json.getField : Json → String → Option Json
  | .obj fields, key => lookupField fields key
  | _, _ => none

/-- result[i] on a JSON value: succeeds only on an array long enough
(otherwise Python raises IndexError or TypeError). -/
def Json.getIndex : Json → Nat → Option Json
  | .arr elems, i => elems.get? i
  | _, _ => none

/-- A JSON value viewed as a string, as required by .strip()
(otherwise Python raises AttributeError). -/
def Json.asString : Json → Option String
  | .str s => some s
  | _ => none

/-- The untyped access path result["choices"][0]["message"]["content"]
performed on a successful response body; none models the unchecked
lookup error the source raises on a mis-shaped body. -/
def extractContent (j : Json) : Option String :=
  ((((j.getField "choices").bind (fun v => v.getIndex 0)).bind
    (fun v => v.getField "message")).bind
    (fun v => v.getField "content")).bind Json.asString

/-- One message of the chat-completion request. -/
structure Message where
  role : String
  content : String
deriving DecidableEq

/-- The JSON payload of the POST request built by
generate_summary_with_perplexity. -/
structure Payload where
  model : String
  messages : List Message
  max_tokens : Nat
deriving DecidableEq

/-- An HTTP response as seen through the requests library:
status_code, raw text, and the parsed JSON body (none when the body is
not JSON, in which case response.json() raises). -/
structure HttpResponse where
  status_code : Nat
  text : String
  body : Option Json

/-- Outcome of one call to the summarization client.
httpError models the non-200 branch: st.error is shown and the function
returns None. parseError models an unchecked lookup error raised while
extracting choices[0].message.content from a 200 response; the hosting
framework catches it at the script boundary and renders it as a visible
error message without terminating the process. ok s models a normal
return of the stripped summary string s. -/
inductive SummarizeOutcome where
  | httpError (status : Nat) (body : String) : SummarizeOutcome
  | parseError : SummarizeOutcome
  | ok (summary : String) : SummarizeOutcome
deriving DecidableEq

/-- The Python return value of the call: None on the non-200 branch,
the summary on success; parseError never reaches a return. -/
def SummarizeOutcome.returnValue : SummarizeOutcome → Option String
  | .httpError _ _ => none
  | .parseError => none
  | .ok s => some s

/-- The request payload built by generate_summary_with_perplexity:
model, a single user-role message carrying the prompt, and max_tokens.
The prompt is the fixed instruction followed by a blank line and the
input text. -/
def summarizeRequest (input : String) (model : String) (max_tokens : Nat) :
    Payload :=
  { model := model
    messages := [⟨"user", "Please summarize the following text:" ++ "\n\n" ++ input⟩]
    max_tokens := max_tokens }

/-- Processing of the HTTP response by generate_summary_with_perplexity:
non-200 statuses give the error/None branch, a 200 response is parsed
and choices[0].message.content is stripped of surrounding whitespace. -/
def summarizeResult (resp : HttpResponse) : SummarizeOutcome :=
  if resp.status_code ≠ 200 then
    .httpError resp.status_code resp.text
  else
    match resp.body with
    | none => .parseError
    | some j =>
      match extractContent j with
      | none => .parseError
      | some content => .ok (pyStrip content)

/-- Embedding of generate_summary_with_perplexity: builds the payload,
performs one POST through the network oracle net, and processes the
response. Returns the request that was sent together with the outcome. -/
def generate_summary_with_perplexity (input : String) (model : String)
    (max_tokens : Nat) (net : Payload → HttpResponse) :
    Payload × SummarizeOutcome :=
  let payload := summarizeRequest input model max_tokens
  (payload, summarizeResult (net payload))

/-- A successful outcome always carries an already-stripped string. -/
theorem summarizeResult_ok_stripped (resp : HttpResponse) (s : String)
    (h : summarizeResult resp = .ok s) : pyStrip s = s := by
  unfold summarizeResult at h
  split at h
  · simp at h
  · split at h
    · simp at h
    · split at h
      · simp at h
      · injection h with h
        rw [← h]
        exact pyStrip_pyStrip _

/-! ## PDF text extraction -/

/-- Embedding of extract_text_from_pdf. A PDF document is the list of
per-page results of page.extract_text(): none for a page whose
extraction returns None, some t for a page whose extraction returns the
string t. The loop appends page_text + a newline for every truthy
page text and skips the rest. -/
def extract_text_from_pdf (pages : List (Option String)) : String :=
  pages.foldl
    (fun acc page_text =>
      match page_text with
      | some t => if pyTruthy t then acc ++ (t ++ "\n") else acc
      | none => acc)
    ""

/-- The contribution of one page to the extracted text. -/
def pageChunk : Option String → String
  | some t => if pyTruthy t then t ++ "\n" else ""
  | none => ""

/-- The extracted text as a right-nested concatenation of page chunks. -/
def concatChunks : List (Option String) → String
  | [] => ""
  | p :: ps => pageChunk p ++ concatChunks ps

theorem extract_foldl_eq (pages : List (Option String)) (acc : String) :
    pages.foldl
      (fun acc page_text =>
        match page_text with
        | some t => if pyTruthy t then acc ++ (t ++ "\n") else acc
        | none => acc)
      acc = acc ++ concatChunks pages := by
  induction pages generalizing acc with
  | nil => simp [concatChunks]
  | cons p ps ih =>
    rw [List.foldl_cons, ih]
    cases p with
    | none => simp [concatChunks, pageChunk]
    | some t =>
      by_cases ht : pyTruthy t
      · simp [concatChunks, pageChunk, ht, String.append_assoc]
      · simp [concatChunks, pageChunk, ht]

theorem extract_text_eq (pages : List (Option String)) :
    extract_text_from_pdf pages = concatChunks pages := by
  unfold extract_text_from_pdf
  rw [extract_foldl_eq]
  simp

/-- Page texts joined in page order, each followed by a newline,
at the character-list level. -/
def joinPages : List (List Char) → List Char
  | [] => []
  | t :: ts => t ++ '\n' :: joinPages ts

theorem extract_data_eq (texts : List String)
    (h : ∀ t ∈ texts, t ≠ "") :
    (extract_text_from_pdf (texts.map some)).data
      = joinPages (texts.map String.data) := by
  rw [extract_text_eq]
  induction texts with
  | nil => rfl
  | cons t ts ih =>
    have ht : t ≠ "" := h t (List.mem_cons_self t ts)
    have htr : pyTruthy t = true := by
      unfold pyTruthy; simp [ht]
    simp only [List.map_cons, concatChunks, pageChunk, htr, if_true,
      joinPages, String.data_append]
    rw [ih (fun u hu => h u (List.mem_cons_of_mem t hu))]
    simp

/-- Splitting a character list at newline characters; always returns
one more piece than there are newlines. -/
def splitNl : List Char → List (List Char)
  | [] => [[]]
  | c :: cs =>
    if c = '\n' then [] :: splitNl cs
    else
      match splitNl cs with
      | [] => [[c]]
      | s :: ss => (c :: s) :: ss

theorem splitNl_ne_nil (l : List Char) : splitNl l ≠ [] := by
  induction l with
  | nil => simp [splitNl]
  | cons c cs ih =>
    unfold splitNl
    by_cases hc : c = '\n'
    · simp [hc]
    · simp only [hc, if_false]
      match h : splitNl cs with
      | [] => simp
      | s :: ss => simp

theorem splitNl_append (t rest : List Char) (h : '\n' ∉ t) :
    splitNl (t ++ '\n' :: rest) = t :: splitNl rest := by
  induction t with
  | nil => simp [splitNl]
  | cons c cs ih =>
    have hc : ¬(c = '\n') := by
      intro hh
      exact h (hh ▸ List.mem_cons_self c cs)
    have hcs : '\n' ∉ cs := fun hm => h (List.mem_cons_of_mem c hm)
    rw [List.cons_append]
    conv_lhs => rw [splitNl]
    rw [if_neg hc, ih hcs]

theorem splitNl_joinPages (ts : List (List Char))
    (h : ∀ t ∈ ts, '\n' ∉ t) :
    splitNl (joinPages ts) = ts ++ [[]] := by
  induction ts with
  | nil => rfl
  | cons t ts ih =>
    unfold joinPages
    rw [splitNl_append t _ (h t (List.mem_cons_self t ts)),
      ih (fun u hu => h u (List.mem_cons_of_mem t hu))]
    rfl

theorem extract_empty_pages (pages : List (Option String))
    (h : ∀ p ∈ pages, p = none ∨ p = some "") :
    extract_text_from_pdf pages = "" := by
  rw [extract_text_eq]
  induction pages with
  | nil => rfl
  | cons p ps ih =>
    unfold concatChunks
    have hp := h p (List.mem_cons_self p ps)
    have hchunk : pageChunk p = "" := by
      rcases hp with h1 | h1
      · rw [h1]; rfl
      · rw [h1]; rfl
    rw [hchunk, ih (fun q hq => h q (List.mem_cons_of_mem p hq))]
    rfl

/-! ## MySQL record store -/

/-- One row of the summaries table: surrogate auto-increment key plus
the (name, summary, date) tuple, the date already rendered as the
YYYY-MM-DD string bound into the INSERT. -/
structure SummaryRow where
  id : Nat
  name : String
  summary : String
  date : String
deriving DecidableEq

/-- The state of an existing summaries table: its rows in storage
order and the next AUTO_INCREMENT value. -/
structure TableState where
  rows : List SummaryRow
  nextId : Nat
deriving DecidableEq

/-- The database: the summaries table, or none when the table does not
exist yet. -/
structure Database where
  summaries : Option TableState
deriving DecidableEq

/-- A store operation fails when the table it needs is unavailable. -/
inductive DbError where
  | storeUnavailable : DbError
deriving DecidableEq

/-- Embedding of create_table_if_not_exists: CREATE TABLE IF NOT EXISTS
leaves an existing table untouched and otherwise creates an empty table
whose AUTO_INCREMENT starts at 1. -/
def create_table_if_not_exists (db : Database) : Database :=
  match db.summaries with
  | some _ => db
  | none => ⟨some ⟨[], 1⟩⟩

/-- Embedding of load_saved_summaries: SELECT name, summary, date FROM
summaries, returning the rows in storage order. -/
def load_saved_summaries (db : Database) :
    Except DbError (List (String × String × String)) :=
  match db.summaries with
  | none => .error .storeUnavailable
  | some t => .ok (t.rows.map (fun r => (r.name, r.summary, r.date)))

/-- Embedding of save_summary_to_db: INSERT INTO summaries
(name, summary, date) VALUES (:name, :summary, :date), with the
surrogate key assigned by AUTO_INCREMENT. -/
def save_summary_to_db (name summary date_str : String) (db : Database) :
    Except DbError Database :=
  match db.summaries with
  | none => .error .storeUnavailable
  | some t =>
    .ok ⟨some ⟨t.rows ++ [⟨t.nextId, name, summary, date_str⟩], t.nextId + 1⟩⟩

/-- The rows currently stored, empty when the table does not exist. -/
def rowsOf (db : Database) : List SummaryRow :=
  match db.summaries with
  | none => []
  | some t => t.rows

/-! ## Dates and strftime formatting -/

/-- A calendar date, as produced by the date picker. -/
structure Date where
  year : Nat
  month : Nat
  day : Nat
deriving DecidableEq

/-- A wall-clock instant, as produced by datetime.now(). -/
structure DateTime where
  year : Nat
  month : Nat
  day : Nat
  hour : Nat
  minute : Nat
  second : Nat
deriving DecidableEq

/-- A decimal numeral left-padded with zeros to the given width, as
strftime renders each field. -/
def zpad (width n : Nat) : String :=
  ⟨List.replicate (width - (toString n).length) '0'⟩ ++ toString n

/-- strftime("%Y-%m-%d") on a date. -/
def formatDate (d : Date) : String :=
  zpad 4 d.year ++ "-" ++ zpad 2 d.month ++ "-" ++ zpad 2 d.day

/-- strftime("%Y-%m-%d %H:%M:%S") on an instant. -/
def formatDateTime (t : DateTime) : String :=
  zpad 4 t.year ++ "-" ++ zpad 2 t.month ++ "-" ++ zpad 2 t.day ++ " " ++
    zpad 2 t.hour ++ ":" ++ zpad 2 t.minute ++ ":" ++ zpad 2 t.second

/-! ## Session controller -/

/-- The Streamlit session state used by main: the last generated
summary (None before any generation) and the cached snapshot of the
saved records as (name, summary, date) triples. -/
structure SessionState where
  generated_summary : Option String
  saved_results : List (String × String × String)
deriving DecidableEq

/-- Startup part of main: ensure the table exists, then populate the
session state with the loaded snapshot and no generated summary. -/
def startSession (db : Database) :
    Database × Except DbError SessionState :=
  let db2 := create_table_if_not_exists db
  match load_saved_summaries db2 with
  | .error e => (db2, .error e)
  | .ok rows => (db2, .ok ⟨none, rows⟩)

/-- Combination of the extracted PDF text and the manual input, as
computed by main before the generate button. -/
def combined_text (pdf_text input_text : String) : String :=
  if pyTruthy pdf_text ∧ pyTruthy input_text then
    pdf_text ++ "\n" ++ input_text
  else if pyTruthy pdf_text then
    pdf_text
  else
    input_text

/-- What one click of the generate button produced.
validationError: the empty-input st.error branch.
httpErrorShown: the client showed the non-200 st.error and returned
None, so the falsy check skipped the state update.
parseFailure: the client raised while parsing a 200 response; the
exception reaches the script boundary where the framework displays it.
blankSummary: the client returned a summary that is falsy (empty), so
nothing was displayed or stored.
summaryShown: the summary was displayed and stored in session state. -/
inductive GenOutcome where
  | validationError : GenOutcome
  | httpErrorShown (status : Nat) (body : String) : GenOutcome
  | parseFailure : GenOutcome
  | blankSummary : GenOutcome
  | summaryShown (s : String) : GenOutcome
deriving DecidableEq

/-- Embedding of the generate-button handler in main: validate the
combined input, call generate_summary_with_perplexity with model
sonar-pro and max_tokens 8000, and store a truthy result in
generated_summary. Returns the new session state, the number of client
invocations performed, and the visible outcome. -/
def runGenerate (sess : SessionState) (pdf_text input_text : String)
    (net : Payload → HttpResponse) : SessionState × Nat × GenOutcome :=
  let ct := combined_text pdf_text input_text
  if pyStrip ct = "" then
    (sess, 0, .validationError)
  else
    match (generate_summary_with_perplexity ct "sonar-pro" 8000 net).2 with
    | .httpError code body => (sess, 1, .httpErrorShown code body)
    | .parseError => (sess, 1, .parseFailure)
    | .ok s =>
      if pyTruthy s then
        ({ sess with generated_summary := some s }, 1, .summaryShown s)
      else
        (sess, 1, .blankSummary)

/-- What one click of the save button produced. notOffered: the save
widgets are not rendered at all while generated_summary is None.
storeFailed: a store operation raised; the exception reaches the script
boundary. saved: the insert succeeded and the snapshot was refreshed. -/
inductive SaveOutcome where
  | notOffered : SaveOutcome
  | storeFailed : SaveOutcome
  | saved : SaveOutcome
deriving DecidableEq

/-- Embedding of the save-button handler in main: only reachable when
generated_summary is not None; resolves the entry name (custom name if
truthy, else "Summary " plus datetime.now() formatted with
strftime("%Y-%m-%d %H:%M:%S")), formats the chosen date with
strftime("%Y-%m-%d"), inserts, then refreshes saved_results via
load_saved_summaries. -/
def runSave (sess : SessionState) (db : Database) (custom_name : String)
    (custom_date : Date) (now : DateTime) :
    SessionState × Database × SaveOutcome :=
  match sess.generated_summary with
  | none => (sess, db, .notOffered)
  | some gs =>
    let entry_name :=
      if pyTruthy custom_name then custom_name
      else "Summary " ++ formatDateTime now
    let date_str := formatDate custom_date
    match save_summary_to_db entry_name gs date_str db with
    | .error _ => (sess, db, .storeFailed)
    | .ok db2 =>
      match load_saved_summaries db2 with
      | .error _ => (sess, db2, .storeFailed)
      | .ok rows => ({ sess with saved_results := rows }, db2, .saved)

/-- The session invariant on generated_summary: None, or a non-empty
string already equal to its own strip. -/
def SessionInv (sess : SessionState) : Prop :=
  ∀ s, sess.generated_summary = some s → s ≠ "" ∧ pyStrip s = s

/-! ## Branch lemmas for the client and the generate handler -/

theorem summarizeResult_non200 (resp : HttpResponse)
    (h : resp.status_code ≠ 200) :
    summarizeResult resp = .httpError resp.status_code resp.text := by
  unfold summarizeResult
  rw [if_pos h]

theorem summarizeResult_200 (resp : HttpResponse) (j : Json)
    (content : String) (h200 : resp.status_code = 200)
    (hbody : resp.body = some j)
    (hcontent : extractContent j = some content) :
    summarizeResult resp = .ok (pyStrip content) := by
  unfold summarizeResult
  simp [h200, hbody, hcontent]

theorem summarizeResult_parse_not_json (resp : HttpResponse)
    (h200 : resp.status_code = 200) (hbody : resp.body = none) :
    summarizeResult resp = .parseError := by
  unfold summarizeResult
  simp [h200, hbody]

theorem summarizeResult_parse_bad_shape (resp : HttpResponse) (j : Json)
    (h200 : resp.status_code = 200) (hbody : resp.body = some j)
    (hbad : extractContent j = none) :
    summarizeResult resp = .parseError := by
  unfold summarizeResult
  simp [h200, hbody, hbad]

theorem runGenerate_eq (sess : SessionState) (pdf_text input_text : String)
    (net : Payload → HttpResponse) :
    runGenerate sess pdf_text input_text net =
      if pyStrip (combined_text pdf_text input_text) = "" then
        (sess, 0, .validationError)
      else
        match summarizeResult (net (summarizeRequest
            (combined_text pdf_text input_text) "sonar-pro" 8000)) with
        | .httpError code body => (sess, 1, .httpErrorShown code body)
        | .parseError => (sess, 1, .parseFailure)
        | .ok s =>
          if pyTruthy s then
            ({ sess with generated_summary := some s }, 1, .summaryShown s)
          else
            (sess, 1, .blankSummary) := rfl

/-! ## Concrete fixtures used by the witnesses -/

/-- A well-formed success body as the endpoint would return it. -/
def sampleJson : Json :=
  .obj [("id", .str "resp-1"),
        ("choices", .arr [.obj
          [("index", .num 0),
           ("message", .obj
             [("role", .str "assistant"),
              ("content", .str "  A concise summary.  ")])]])]

/-- A network oracle answering 200 with the well-formed body. -/
def okNet : Payload → HttpResponse :=
  fun _ => ⟨200, "ok", some sampleJson⟩

/-- A network oracle answering 503 with a plain error body. -/
def failNet : Payload → HttpResponse :=
  fun _ => ⟨503, "service unavailable", none⟩

/-- A 200 body missing the expected completion structure. -/
def badJson : Json := .obj [("detail", .str "no choices here")]

/-- A network oracle answering 200 with the mis-shaped body. -/
def badNet : Payload → HttpResponse :=
  fun _ => ⟨200, "ok", some badJson⟩

/-- A 200 body whose message content strips to the empty string. -/
def blankJson : Json :=
  .obj [("choices", .arr [.obj
    [("message", .obj [("content", .str "   ")])]])]

/-- A network oracle answering 200 with content that strips to empty. -/
def blankNet : Payload → HttpResponse :=
  fun _ => ⟨200, "ok", some blankJson⟩

/-- A session with one previously generated summary. -/
def sessWithSummary : SessionState := ⟨some "Old summary.", []⟩

/-- A database whose summaries table exists and is empty. -/
def emptyDb : Database := ⟨some ⟨[], 1⟩⟩

/-! ## The claims -/

/-- C1: for every non-empty input text, model identifier and token
budget, generate_summary_with_perplexity builds the prompt as the fixed
instruction "Please summarize the following text:" followed (after a
blank line) by the input text, sends a single-message request whose
body has fields model, messages (one user-role message carrying the
prompt) and max_tokens, and when the endpoint returns HTTP 200 with a
well-formed body it returns choices[0].message.content trimmed of
leading and trailing whitespace. -/
theorem summarize_request_shape_and_success (input model : String)
    (max_tokens : Nat) (hne : input ≠ "") (net : Payload → HttpResponse)
    (j : Json) (content : String)
    (h200 : (net (summarizeRequest input model max_tokens)).status_code = 200)
    (hbody : (net (summarizeRequest input model max_tokens)).body = some j)
    (hcontent : extractContent j = some content) :
    (generate_summary_with_perplexity input model max_tokens net).1.model
       = model ∧
    (generate_summary_with_perplexity input model max_tokens net).1.messages
       = [⟨"user", "Please summarize the following text:" ++ "\n\n" ++ input⟩] ∧
    (generate_summary_with_perplexity input model max_tokens net).1.max_tokens
       = max_tokens ∧
    (generate_summary_with_perplexity input model max_tokens net).2
       = .ok (pyStrip content) := by
  refine ⟨rfl, rfl, rfl, ?_⟩
  exact summarizeResult_200 _ j content h200 hbody hcontent

/-- Witness for C1 at a concrete input, network answer and body. -/
theorem summarize_request_shape_and_success_witness :
    (generate_summary_with_perplexity "hello world" "sonar-pro" 8000
        okNet).2 = .ok "A concise summary." := by
  have h := summarize_request_shape_and_success "hello world" "sonar-pro"
    8000 (by decide) okNet sampleJson "  A concise summary.  "
    rfl rfl (by decide)
  have hs : pyStrip "  A concise summary.  " = "A concise summary." := by
    decide
  rw [← hs]
  exact h.2.2.2

/-- C2: for every HTTP status other than 200,
generate_summary_with_perplexity returns None (the no-summary
sentinel), and the generate handler leaves generated_summary unchanged,
so no save action is newly offered by that call. -/
theorem summarize_non200_none_and_state_unchanged (sess : SessionState)
    (pdf_text input_text : String) (resp : HttpResponse)
    (hne : resp.status_code ≠ 200) (net : Payload → HttpResponse)
    (hnet : ∀ p, (net p).status_code ≠ 200) :
    summarizeResult resp = .httpError resp.status_code resp.text ∧
    (summarizeResult resp).returnValue = none ∧
    (runGenerate sess pdf_text input_text net).1 = sess ∧
    (runGenerate sess pdf_text input_text net).1.generated_summary
      = sess.generated_summary := by
  have h1 := summarizeResult_non200 resp hne
  have h3 : (runGenerate sess pdf_text input_text net).1 = sess := by
    rw [runGenerate_eq]
    by_cases hct : pyStrip (combined_text pdf_text input_text) = ""
    · rw [if_pos hct]
    · rw [if_neg hct,
        summarizeResult_non200 _ (hnet (summarizeRequest
          (combined_text pdf_text input_text) "sonar-pro" 8000))]
  exact ⟨h1, by rw [h1]; rfl, h3, by rw [h3]⟩

theorem failNet_status (p : Payload) : (failNet p).status_code ≠ 200 := by
  show (503 : Nat) ≠ 200
  decide

/-- Witness for C2 at a concrete 503 answer. -/
theorem summarize_non200_none_and_state_unchanged_witness :
    summarizeResult ⟨503, "service unavailable", none⟩
        = .httpError 503 "service unavailable" ∧
    (summarizeResult ⟨503, "service unavailable", none⟩).returnValue
        = none ∧
    (runGenerate sessWithSummary "" "some text" failNet).1
        = sessWithSummary ∧
    (runGenerate sessWithSummary "" "some text" failNet).1.generated_summary
        = sessWithSummary.generated_summary :=
  summarize_non200_none_and_state_unchanged sessWithSummary "" "some text"
    ⟨503, "service unavailable", none⟩ (by decide) failNet
    failNet_status

/-- C3: on a PDF of N pages whose page texts are all extractable
(truthy), the extracted string consists of the N page texts in page
order, each followed by a newline; splitting the result at newline
characters recovers exactly the N page texts in order (followed by the
empty piece after the final newline) whenever the page texts contain no
internal newline. On a PDF in which no page yields extractable text
(every page extraction gives None or an empty string) the result is the
empty string, the unextractable pages being skipped without error. -/
theorem extract_pages_segments (texts : List String)
    (h : ∀ t ∈ texts, t ≠ "" ∧ '\n' ∉ t.data) :
    (extract_text_from_pdf (texts.map some)).data
        = joinPages (texts.map String.data) ∧
    splitNl (extract_text_from_pdf (texts.map some)).data
        = texts.map String.data ++ [[]] ∧
    (splitNl (extract_text_from_pdf (texts.map some)).data).length
        = texts.length + 1 ∧
    (∀ pages : List (Option String),
      (∀ p ∈ pages, p = none ∨ p = some "") →
      extract_text_from_pdf pages = "") := by
  have hdata := extract_data_eq texts (fun t ht => (h t ht).1)
  have hsplit : splitNl (extract_text_from_pdf (texts.map some)).data
      = texts.map String.data ++ [[]] := by
    rw [hdata]
    apply splitNl_joinPages
    intro u hu
    obtain ⟨t, ht, rfl⟩ := List.mem_map.mp hu
    exact (h t ht).2
  refine ⟨hdata, hsplit, ?_, extract_empty_pages⟩
  rw [hsplit]
  simp

/-- Witness for C3 on a two-page PDF and an all-empty PDF. -/
theorem extract_pages_segments_witness :
    splitNl (extract_text_from_pdf
        (["page one", "page two"].map some)).data
      = ["page one", "page two"].map String.data ++ [[]] :=
  (extract_pages_segments ["page one", "page two"] (by decide)).2.1

/-- C4: save-then-load round trip. Starting from an empty store (the
table freshly created), inserting the record (name "Q1 Report",
summary "Revenue up 12%.", date "2024-03-01") and then loading gives a
result set holding exactly one record whose name, summary and date
match those three values; the surrogate key is not exposed by the
SELECT. -/
theorem save_then_load_roundtrip :
    ∃ db2, save_summary_to_db "Q1 Report" "Revenue up 12%." "2024-03-01"
        (create_table_if_not_exists ⟨none⟩) = .ok db2 ∧
      load_saved_summaries db2
        = .ok [("Q1 Report", "Revenue up 12%.", "2024-03-01")] :=
  ⟨⟨some ⟨[⟨1, "Q1 Report", "Revenue up 12%.", "2024-03-01"⟩], 2⟩⟩,
    rfl, rfl⟩

/-- C5: on the generate action, an input whose combination of PDF text
and manual text strips to empty raises the validation error and the
client is invoked zero times; otherwise the client is invoked exactly
once and a truthy result overwrites generated_summary. -/
theorem generate_validates_before_calling_client (sess : SessionState)
    (pdf_text input_text : String) (net : Payload → HttpResponse) :
    (pyStrip (combined_text pdf_text input_text) = "" →
      runGenerate sess pdf_text input_text net
        = (sess, 0, .validationError)) ∧
    (pyStrip (combined_text pdf_text input_text) ≠ "" →
      (runGenerate sess pdf_text input_text net).2.1 = 1 ∧
      ∀ s, pyTruthy s →
        (generate_summary_with_perplexity
            (combined_text pdf_text input_text) "sonar-pro" 8000 net).2
          = .ok s →
        (runGenerate sess pdf_text input_text net).1.generated_summary
          = some s) := by
  constructor
  · intro hct
    rw [runGenerate_eq, if_pos hct]
  · intro hct
    constructor
    · rw [runGenerate_eq, if_neg hct]
      cases hres : summarizeResult (net (summarizeRequest
          (combined_text pdf_text input_text) "sonar-pro" 8000)) with
      | httpError code body => rfl
      | parseError => rfl
      | ok s =>
        by_cases hs : pyTruthy s
        · simp [hs]
        · simp [hs]
    · intro s hs hok
      rw [runGenerate_eq, if_neg hct]
      have hok2 : summarizeResult (net (summarizeRequest
          (combined_text pdf_text input_text) "sonar-pro" 8000)) = .ok s :=
        hok
      rw [hok2]
      simp [hs]

/-- Witness for C5: empty combined input on a live oracle makes zero
network calls and yields the validation error. -/
theorem generate_validates_before_calling_client_witness :
    runGenerate ⟨none, []⟩ "" "   " okNet
      = (⟨none, []⟩, 0, .validationError) :=
  (generate_validates_before_calling_client ⟨none, []⟩ "" "   " okNet).1
    (by decide)

/-- C6: a 200 response whose body lacks the expected completion
structure (body not JSON, or choices[0].message.content missing or
mis-shaped) makes the client fail with the response-parse error; the
generate handler then ends the script run with that error rendered as
a visible message, the process continues, and generated_summary is not
mutated by the call. -/
theorem parse_failure_visible_and_no_mutation (sess : SessionState)
    (pdf_text input_text : String) (net : Payload → HttpResponse)
    (j : Json)
    (hct : pyStrip (combined_text pdf_text input_text) ≠ "")
    (h200 : (net (summarizeRequest (combined_text pdf_text input_text)
        "sonar-pro" 8000)).status_code = 200)
    (hbody : (net (summarizeRequest (combined_text pdf_text input_text)
        "sonar-pro" 8000)).body = some j)
    (hbad : extractContent j = none) :
    summarizeResult (net (summarizeRequest
        (combined_text pdf_text input_text) "sonar-pro" 8000))
      = .parseError ∧
    runGenerate sess pdf_text input_text net = (sess, 1, .parseFailure) ∧
    (runGenerate sess pdf_text input_text net).1.generated_summary
      = sess.generated_summary := by
  have hres := summarizeResult_parse_bad_shape _ j h200 hbody hbad
  have hrun : runGenerate sess pdf_text input_text net
      = (sess, 1, .parseFailure) := by
    rw [runGenerate_eq, if_neg hct, hres]
  exact ⟨hres, hrun, by rw [hrun]⟩

/-- Witness for C6 at a concrete mis-shaped 200 body. -/
theorem parse_failure_visible_and_no_mutation_witness :
    runGenerate sessWithSummary "" "some text" badNet
      = (sessWithSummary, 1, .parseFailure) :=
  (parse_failure_visible_and_no_mutation sessWithSummary "" "some text"
    badNet badJson (by decide) rfl rfl (by decide)).2.1

theorem String.append_ne_empty_left (a b : String) (ha : a ≠ "") :
    a ++ b ≠ "" := by
  intro h
  have hd := congrArg String.data h
  rw [String.data_append] at hd
  have h1 : a.data = [] := (List.append_eq_nil.mp hd).1
  exact ha (String.ext h1)

theorem pyTruthy_ne (s : String) (h : pyTruthy s = true) : s ≠ "" :=
  of_decide_eq_true h

/-- C7: invariant over all save actions. The save handler is only
reachable when generated_summary is not None, and under the session
invariant that value is non-empty; when the custom name input is empty
the controller substitutes the generated "Summary " label, which is
never empty. Hence every row the save action adds to the store has a
non-empty name and a non-empty summary. -/
theorem save_never_inserts_empty_fields (sess : SessionState)
    (db : Database) (custom_name : String) (custom_date : Date)
    (now : DateTime) (hinv : SessionInv sess) :
    ∀ r ∈ rowsOf (runSave sess db custom_name custom_date now).2.1,
      r ∈ rowsOf db ∨ (r.name ≠ "" ∧ r.summary ≠ "") := by
  obtain ⟨gsOpt, results⟩ := sess
  cases gsOpt with
  | none =>
    intro r hr
    exact Or.inl hr
  | some gs =>
    have hgs : gs ≠ "" := (hinv gs rfl).1
    obtain ⟨tOpt⟩ := db
    cases tOpt with
    | none =>
      intro r hr
      exact Or.inl hr
    | some t =>
      intro r hr
      have hr2 : r ∈ t.rows

        ++ [⟨t.nextId,
              (if pyTruthy custom_name then custom_name
               else "Summary " ++ formatDateTime now), gs,
              formatDate custom_date⟩] := hr
      rcases List.mem_append.mp hr2 with h1 | h1
      · exact Or.inl h1
      · right
        have hre : r = ⟨t.nextId,
            (if pyTruthy custom_name then custom_name
             else "Summary " ++ formatDateTime now), gs,
            formatDate custom_date⟩ := by
          simpa using h1
        rw [hre]
        refine ⟨?_, hgs⟩
        by_cases hcn : pyTruthy custom_name
        · simpa [hcn] using pyTruthy_ne custom_name (by simpa using hcn)
        · simp only [hcn, if_false]
          exact String.append_ne_empty_left "Summary " (formatDateTime now)
            (by decide)

/-- Witness for C7: a blank custom name on a session holding a summary
inserts a row whose name and summary are both non-empty. -/
theorem save_never_inserts_empty_fields_witness :
    (⟨1, "Summary 2024-03-01 10:05:09", "Old summary.", "2024-03-01"⟩ :
        SummaryRow) ∈ rowsOf emptyDb ∨
      ("Summary 2024-03-01 10:05:09" : String) ≠ "" ∧
      ("Old summary." : String) ≠ "" :=
  save_never_inserts_empty_fields sessWithSummary emptyDb ""
    ⟨2024, 3, 1⟩ ⟨2024, 3, 1, 10, 5, 9⟩
    (fun s h => by
      injection h with h
      rw [← h]
      exact ⟨by decide, by decide⟩)
    ⟨1, "Summary 2024-03-01 10:05:09", "Old summary.", "2024-03-01"⟩
    (by decide)

/-- C8: on the save action the record name resolves to the custom
input when that is non-empty and otherwise to "Summary " followed by
datetime.now() rendered as YYYY-MM-DD HH:MM:SS, the record date is the
chosen date rendered as YYYY-MM-DD, and after the insert the
saved_results snapshot is refreshed through load_saved_summaries and
matches the new store contents. -/
theorem save_resolves_name_and_date (sess : SessionState) (db : Database)
    (custom_name : String) (custom_date : Date) (now : DateTime)
    (gs : String) (t : TableState)
    (hgs : sess.generated_summary = some gs)
    (hdb : db.summaries = some t) :
    (runSave sess db custom_name custom_date now).2.1
        = ⟨some ⟨t.rows ++ [⟨t.nextId,
            (if pyTruthy custom_name then custom_name
             else "Summary " ++ formatDateTime now), gs,
            formatDate custom_date⟩], t.nextId + 1⟩⟩ ∧
    (runSave sess db custom_name custom_date now).2.2 = .saved ∧
    (runSave sess db custom_name custom_date now).1.saved_results
        = (t.rows ++ ([⟨t.nextId,
            (if pyTruthy custom_name then custom_name
             else "Summary " ++ formatDateTime now), gs,
            formatDate custom_date⟩] : List SummaryRow)).map
            (fun r => (r.name, r.summary, r.date)) ∧
    load_saved_summaries (runSave sess db custom_name custom_date now).2.1
        = .ok ((runSave sess db custom_name custom_date now).1.saved_results) ∧
    (runSave sess db custom_name custom_date now).1.generated_summary
        = some gs := by
  obtain ⟨gsOpt, results⟩ := sess
  obtain ⟨tOpt⟩ := db
  obtain rfl : gsOpt = some gs := hgs
  obtain rfl : tOpt = some t := hdb
  exact ⟨rfl, rfl, rfl, rfl, rfl⟩

/-- Witness for C8: blank custom name, so the generated label is used,
and the snapshot afterwards holds exactly the inserted record. -/
theorem save_resolves_name_and_date_witness :
    (runSave sessWithSummary emptyDb "" ⟨2024, 3, 1⟩
        ⟨2024, 3, 1, 10, 5, 9⟩).1.saved_results
      = [("Summary 2024-03-01 10:05:09", "Old summary.", "2024-03-01")] := by
  have h := (save_resolves_name_and_date sessWithSummary emptyDb ""
    ⟨2024, 3, 1⟩ ⟨2024, 3, 1, 10, 5, 9⟩ "Old summary." ⟨[], 1⟩
    rfl rfl).2.2.1
  rw [h]
  decide

/-- C9: create_table_if_not_exists is idempotent. Running it twice
yields the same database as running it once with no error, and on a
database whose table already exists (in particular one already holding
records) it is the identity, leaving the existing data untouched. -/
theorem ensure_schema_idempotent (db : Database) :
    create_table_if_not_exists (create_table_if_not_exists db)
        = create_table_if_not_exists db ∧
    (∀ t, db.summaries = some t → create_table_if_not_exists db = db) := by
  obtain ⟨tOpt⟩ := db
  cases tOpt with
  | none => exact ⟨rfl, fun t h => nomatch h⟩
  | some t => exact ⟨rfl, fun u h => rfl⟩

/-- A database already holding one saved record. -/
def dbWithRow : Database :=
  ⟨some ⟨[⟨1, "Q1 Report", "Revenue up 12%.", "2024-03-01"⟩], 2⟩⟩

/-- Witness for C9: on a store already holding a record, the schema
call changes nothing. -/
theorem ensure_schema_idempotent_witness :
    create_table_if_not_exists dbWithRow = dbWithRow :=
  (ensure_schema_idempotent dbWithRow).2
    ⟨[⟨1, "Q1 Report", "Revenue up 12%.", "2024-03-01"⟩], 2⟩ rfl

/-- C10: implicit invariant kept by every action. generated_summary is
always either None or a non-empty string equal to its own strip: the
invariant holds at session start, is preserved by the generate handler
(which only assigns an already-stripped truthy value) and by the save
handler (which never touches generated_summary); and a 200 response
whose message content strips to the empty string leaves the session
state, and hence the offering of the save action, unchanged. -/
theorem generated_summary_always_stripped (sess : SessionState)
    (pdf_text input_text : String) (net : Payload → HttpResponse)
    (db : Database) (custom_name : String) (custom_date : Date)
    (now : DateTime) (hinv : SessionInv sess) :
    (∀ rows, SessionInv ⟨none, rows⟩) ∧
    SessionInv (runGenerate sess pdf_text input_text net).1 ∧
    SessionInv (runSave sess db custom_name custom_date now).1 ∧
    (∀ j content,
      (net (summarizeRequest (combined_text pdf_text input_text)
          "sonar-pro" 8000)).status_code = 200 →
      (net (summarizeRequest (combined_text pdf_text input_text)
          "sonar-pro" 8000)).body = some j →
      extractContent j = some content →
      pyStrip content = "" →
      (runGenerate sess pdf_text input_text net).1 = sess) := by
  refine ⟨?_, ?_, ?_, ?_⟩
  · intro rows s h
    exact nomatch h
  · rw [runGenerate_eq]
    by_cases hct : pyStrip (combined_text pdf_text input_text) = ""
    · rw [if_pos hct]; exact hinv
    · rw [if_neg hct]
      cases hres : summarizeResult (net (summarizeRequest
          (combined_text pdf_text input_text) "sonar-pro" 8000)) with
      | httpError code body => exact hinv
      | parseError => exact hinv
      | ok s =>
        by_cases hs : pyTruthy s
        · simp only [hs, if_true]
          intro u hu
          have hu2 : some s = some u := hu
          obtain rfl : s = u := Option.some.inj hu2
          exact ⟨pyTruthy_ne s hs, summarizeResult_ok_stripped _ s hres⟩
        · simp only [hs, if_false]
          exact hinv
  · obtain ⟨gsOpt, results⟩ := sess
    cases gsOpt with
    | none => exact hinv
    | some gs =>
      obtain ⟨tOpt⟩ := db
      cases tOpt with
      | none => exact hinv
      | some t =>
        intro u hu
        exact hinv u hu
  · intro j content h200 hbody hcontent hblank
    rw [runGenerate_eq]
    by_cases hct : pyStrip (combined_text pdf_text input_text) = ""
    · rw [if_pos hct]
    · rw [if_neg hct,
        summarizeResult_200 _ j content h200 hbody hcontent, hblank]
      rfl

/-- Witness for C10: a 200 answer whose content strips to empty leaves
a concrete session unchanged. -/
theorem generated_summary_always_stripped_witness :
    (runGenerate sessWithSummary "" "some text" blankNet).1
      = sessWithSummary :=
  (generated_summary_always_stripped sessWithSummary "" "some text"
    blankNet emptyDb "" ⟨2024, 3, 1⟩ ⟨2024, 3, 1, 10, 5, 9⟩
    (fun s h => by
      injection h with h
      rw [← h]
      exact ⟨by decide, by decide⟩)).2.2.2
    blankJson "   " rfl rfl (by decide) (by decide)
